import Mathlib

/-!
Verification of the ttl-sync reconciliation engine.

This file gives a shallow embedding of the synchronization core found in
`source/parse_json.py` (with helpers from `source/base.py` and
`source/bf_io.py`) and proves properties of it.  Pure Python functions become
Lean functions; platform I/O (the Pennsieve API) is represented by explicit
inputs (the remote record store, search responses, team lists, failure
injection) and by explicit lists of issued remote calls; exceptions become
`Except`.  Python `dict`s become association lists that preserve insertion
order, matching CPython semantics.
-/

namespace TtlSync

/-! ## Records

A remote record as the sync engine sees it: its platform id and the value of
its `recordHash` property (`record.values['recordHash']`, which can be the
Python `None`, hence `Option`).  A local snapshot record contributes its
precomputed content `hash` and, for subject collections, the
`animalSubjectIsOfSpecies` discriminant consulted by the sub-type filters of
`update_records`. -/

structure RRecord where
  id : String
  recordHash : Option String
  deriving DecidableEq, Repr

structure LocalRec where
  hash : String
  animalSubjectIsOfSpecies : Option String
  deriving DecidableEq, Repr

/-- `field_matches_value(sub_node, field, value)` from `parse_json.py`,
specialised to the only field it is ever called with
(`animalSubjectIsOfSpecies`): the field must be present and equal. -/
def field_matches_value (sub_node : LocalRec) (value : String) : Bool :=
  sub_node.animalSubjectIsOfSpecies == some value

/-! ## `update_records` staging (parse_json.py 444-503)

The create phase iterates the local collection in order, records every local
hash in `all_json_hashes`, and appends to the create list each record whose
hash is absent from the remote hashes (or unconditionally under
`update_all`), subject to the sub-type filters.  The remove phase walks the
remote hashes and, for each hash absent from `all_json_hashes`, stages the
record returned by `get_record_by_hash`, which scans the record cache and
returns the first record whose `recordHash` equals the hash. -/

def stage_creates (sub_node : List (String × LocalRec))
    (all_record_hashes : List (Option String))
    (sub_type exclude_sub_type : Option String) (update_all : Bool) :
    List (String × LocalRec) :=
  sub_node.filter (fun p =>
    (!(all_record_hashes.contains (some p.2.hash)) || update_all) &&
    (match sub_type with
     | some st => field_matches_value p.2 st
     | none => true) &&
    (match exclude_sub_type with
     | some ex => !(field_matches_value p.2 ex)
     | none => true))

def all_json_hashes (sub_node : List (String × LocalRec)) : List String :=
  sub_node.map (fun p => p.2.hash)

/-- The remove-phase test `hash not in all_json_hashes`; a `None` remote hash
is never an element of the list of (string) local hashes. -/
def stale_hash (jh : List String) : Option String → Bool
  | some s => !(jh.contains s)
  | none => true

/-- `get_record_by_hash(model_name, hash, record_cache)`: first cached record
whose `recordHash` equals the given hash, else `None`. -/
def get_record_by_hash (cache : List RRecord) (h : Option String) : Option RRecord :=
  cache.find? (fun r => r.recordHash == h)

def stage_removes (all_record_hashes : List (Option String)) (jh : List String)
    (cache : List RRecord) : List (Option RRecord) :=
  (all_record_hashes.filter (stale_hash jh)).map (get_record_by_hash cache)

/-- The records returned by `model.create_records` for the staged creates and
zipped into the record cache before the remove phase runs.  A created
record stores the transformed payload; for the models whose transform
copies the snapshot hash its `recordHash` is the local record's hash, as
modelled here.  The staged-remove characterisation is insensitive to this
choice: every stale hash is carried by some fetched remote record, and the
cache scans the fetched records before the created ones, so
`get_record_by_hash` never answers with a created record for a stale
hash.  The platform id of a created record is fresh. -/
def created_records (creates : List (String × LocalRec)) : List RRecord :=
  creates.map (fun p => { id := "created:" ++ p.1, recordHash := some p.2.hash })

/-! ## Create batching (parse_json.py 472-492)

`n = 100`, `nr_batches = math.floor(len(record_list)/n)`; if `nr_batches > 1`
the loop issues `record_list[i*n:(i*n+n)]` for `i = 0 .. nr_batches-1` and a
final `record_list[(i+1)*n:]` (with `i = nr_batches-1`); otherwise a single
call with the whole list.  The block is guarded by `if len(record_list):`. -/

def create_record_batches (record_list : List α) : List (List α) :=
  let n := 100
  let nr_batches := record_list.length / n
  if nr_batches > 1 then
    ((List.range nr_batches).map (fun i => (record_list.drop (i * n)).take n)) ++
      [record_list.drop (nr_batches * n)]
  else
    [record_list]

def create_records_calls (record_list : List α) : List (List α) :=
  if record_list.length ≠ 0 then create_record_batches record_list else []

/-! ## Helper lemmas about first-match lookup -/

theorem find?_eq_some_of_nodup_map {α β : Type} [BEq β] [LawfulBEq β]
    (f : α → β) (l : List α) (hnd : (l.map f).Nodup) (a : α) (ha : a ∈ l) :
    l.find? (fun x => f x == f a) = some a := by
  induction l with
  | nil => cases ha
  | cons b t ih =>
    simp only [List.map_cons, List.nodup_cons] at hnd
    rcases List.mem_cons.mp ha with hab | hat
    · subst hab
      simp [List.find?]
    · have hne : ¬ f b = f a := by
        intro h
        exact hnd.1 (h ▸ List.mem_map_of_mem f hat)
      have : (f b == f a) = false := beq_eq_false_iff_ne.mpr hne
      simp [List.find?, this, ih hnd.2 hat]

theorem find?_append_left {α : Type} (p : α → Bool) (l1 l2 : List α) (a : α)
    (h : l1.find? p = some a) : (l1 ++ l2).find? p = some a := by
  induction l1 with
  | nil => simp [List.find?] at h
  | cons b t ih =>
    rw [List.cons_append]
    by_cases hb : p b = true
    · rw [List.find?_cons_of_pos _ hb] at h ⊢
      exact h
    · have hb' : ¬ p b := by simpa using hb
      rw [List.find?_cons_of_neg _ hb'] at h ⊢
      exact ih h

/-! ## Remote fetch (parse_json.py 213-223)

`get_all_records_from_remote` paginates through all records of a model:
`nr_records = model.count`, `batch_size = 500`, and for
`count in range(math.ceil(nr_records/batch_size))` it calls
`model.get_all(limit=batch_size, offset=count*batch_size)`, updating the
record cache with `{record.id: record}` and extending the hash list with
`record.values['recordHash']`.  The platform's record listing is modelled as
a list `store`; `get_all` with a limit and offset returns the corresponding
slice. -/

def model_get_all (store : List RRecord) (limit offset : Nat) : List RRecord :=
  (store.drop offset).take limit

def get_all_records_from_remote (store : List RRecord) :
    List (Option String) × List (String × RRecord) :=
  ((List.range ((store.length + 499) / 500)).flatMap
      (fun count => (model_get_all store 500 (count * 500)).map (fun r => r.recordHash)),
   (List.range ((store.length + 499) / 500)).flatMap
      (fun count => (model_get_all store 500 (count * 500)).map (fun r => (r.id, r))))

theorem range_flatMap_take {α : Type} (l : List α) (k : Nat) :
    (List.range k).flatMap (fun c => (l.drop (c * 500)).take 500) = l.take (k * 500) := by
  induction k with
  | zero => simp
  | succ k ih =>
    have hmul : (k + 1) * 500 = k * 500 + 500 := by ring
    rw [hmul, List.take_add, List.range_succ, List.flatMap_append, ih]
    simp

theorem le_ceil_mul (n : Nat) : n ≤ ((n + 499) / 500) * 500 := by
  omega

/-- The paginated fetch visits every remote record exactly once: the
collected hash list is the hash of every record of the store, in order. -/
theorem get_all_records_from_remote_fst (store : List RRecord) :
    (get_all_records_from_remote store).1 = store.map (fun r => r.recordHash) := by
  show (List.range ((store.length + 499) / 500)).flatMap
      (fun count => (model_get_all store 500 (count * 500)).map (fun r => r.recordHash)) = _
  rw [← List.map_flatMap]
  unfold model_get_all
  rw [range_flatMap_take, List.take_of_length_le (le_ceil_mul store.length)]

/-! ## C1: the create/remove diff of `update_records` -/

/-- C1 (amended): in a reconciliation of one (dataset, entity type) pair with
no sub-type filter and no force flag, the staged creates are exactly the
local snapshot records whose hash is absent from the hashes carried by the
existing remote records; provided the existing remote records carry pairwise
distinct hashes, the records staged for removal are exactly the remote
records whose hash is absent from the local snapshot's hash set (without
that proviso, `get_record_by_hash` returns the first cache record per stale
hash, so a duplicated stale hash stages its first carrier twice and its
second carrier never); and a local record present on both sides with a
changed hash is staged both as a create and as a remove — the engine has no
in-place update operation, its only write phases are batch creates and a
bulk delete. -/
theorem claim_C1_amended (locals : List (String × LocalRec)) (remotes : List RRecord)
    (hnd : (remotes.map (fun r => r.recordHash)).Nodup) :
    (get_all_records_from_remote remotes).1 = remotes.map (fun r => r.recordHash) ∧
    (∀ p : String × LocalRec,
        p ∈ stage_creates locals (remotes.map (fun r => r.recordHash)) none none false ↔
          p ∈ locals ∧ ¬ some p.2.hash ∈ remotes.map (fun r => r.recordHash)) ∧
    (∀ r : RRecord,
        some r ∈ stage_removes (remotes.map (fun r => r.recordHash)) (all_json_hashes locals)
            (remotes ++ created_records
              (stage_creates locals (remotes.map (fun r => r.recordHash)) none none false)) ↔
          r ∈ remotes ∧ stale_hash (all_json_hashes locals) r.recordHash = true) ∧
    (∀ i rec rOld, (i, rec) ∈ locals → rOld ∈ remotes →
        ¬ some rec.hash ∈ remotes.map (fun r => r.recordHash) →
        stale_hash (all_json_hashes locals) rOld.recordHash = true →
          (i, rec) ∈ stage_creates locals (remotes.map (fun r => r.recordHash)) none none false ∧
          some rOld ∈ stage_removes (remotes.map (fun r => r.recordHash)) (all_json_hashes locals)
            (remotes ++ created_records
              (stage_creates locals (remotes.map (fun r => r.recordHash)) none none false))) := by
  have hcre : ∀ p : String × LocalRec,
      p ∈ stage_creates locals (remotes.map (fun r => r.recordHash)) none none false ↔
        p ∈ locals ∧ ¬ some p.2.hash ∈ remotes.map (fun r => r.recordHash) := by
    intro p
    simp [stage_creates, List.mem_filter]
  have hrem : ∀ r : RRecord,
      some r ∈ stage_removes (remotes.map (fun r => r.recordHash)) (all_json_hashes locals)
          (remotes ++ created_records
            (stage_creates locals (remotes.map (fun r => r.recordHash)) none none false)) ↔
        r ∈ remotes ∧ stale_hash (all_json_hashes locals) r.recordHash = true := by
    intro r
    constructor
    · intro hmem
      unfold stage_removes at hmem
      rcases List.mem_map.mp hmem with ⟨h, hfil, hget⟩
      rcases List.mem_filter.mp hfil with ⟨hrh, hstale⟩
      unfold get_record_by_hash at hget
      have hrc : r ∈ remotes ++ created_records
          (stage_creates locals (remotes.map (fun r => r.recordHash)) none none false) :=
        List.mem_of_find?_eq_some hget
      have hbeq := List.find?_some hget
      have hreq : r.recordHash = h := by simpa using hbeq
      rcases List.mem_append.mp hrc with hro | hcr
      · exact ⟨hro, hreq ▸ hstale⟩
      · exfalso
        rcases List.mem_map.mp hcr with ⟨p, hp, hpr⟩
        have hploc : p ∈ locals := List.mem_of_mem_filter hp
        have hhash : r.recordHash = some p.2.hash := by rw [← hpr]
        have hjh : p.2.hash ∈ all_json_hashes locals := List.mem_map_of_mem _ hploc
        have hfalse : stale_hash (all_json_hashes locals) (some p.2.hash) = false := by
          simp [stale_hash]
          exact hjh
        rw [hreq] at hhash
        rw [hhash] at hstale
        rw [hfalse] at hstale
        exact Bool.false_ne_true hstale
    · rintro ⟨hro, hstale⟩
      unfold stage_removes
      refine List.mem_map.mpr ⟨r.recordHash, ?_, ?_⟩
      · exact List.mem_filter.mpr ⟨List.mem_map_of_mem _ hro, hstale⟩
      · unfold get_record_by_hash
        exact find?_append_left _ _ _ r
          (find?_eq_some_of_nodup_map (fun x => x.recordHash) remotes hnd r hro)
  refine ⟨get_all_records_from_remote_fst remotes, hcre, hrem, ?_⟩
  intro i rec rOld hloc hro hnew hold
  exact ⟨(hcre (i, rec)).mpr ⟨hloc, hnew⟩, (hrem rOld).mpr ⟨hro, hold⟩⟩

def c1_remotes : List RRecord :=
  [{ id := "r1", recordHash := some "h" }, { id := "r2", recordHash := some "h" }]

/-- C1 counterexample: two existing remote records carry the same stale hash
`"h"` (absent from an empty local snapshot).  The claim says the set of
records staged for removal is exactly the remote records with a stale hash,
so it must contain the second record `r2`; but `get_record_by_hash` returns
the first cache record per hash, so the staged list is `[r1, r1]` and `r2`
is never staged. -/
theorem claim_C1_counterexample :
    ({ id := "r2", recordHash := some "h" } : RRecord) ∈ c1_remotes ∧
    stale_hash (all_json_hashes []) (some "h") = true ∧
    ¬ some ({ id := "r2", recordHash := some "h" } : RRecord) ∈
        stage_removes (c1_remotes.map (fun r => r.recordHash)) (all_json_hashes [])
          (c1_remotes ++ created_records
            (stage_creates [] (c1_remotes.map (fun r => r.recordHash)) none none false)) := by
  decide

def c1w_locals : List (String × LocalRec) :=
  [("A", { hash := "h2", animalSubjectIsOfSpecies := none })]

def c1w_remotes : List RRecord := [{ id := "r1", recordHash := some "h1" }]

/-- C1 witness: the amended diff characterisation instantiated at a concrete
one-record snapshot and a one-record remote store with distinct hashes. -/
theorem claim_C1_amended_witness :
    (c1w_remotes.map (fun r => r.recordHash)).Nodup ∧
    ((get_all_records_from_remote c1w_remotes).1 = c1w_remotes.map (fun r => r.recordHash) ∧
    (∀ p : String × LocalRec,
        p ∈ stage_creates c1w_locals (c1w_remotes.map (fun r => r.recordHash)) none none false ↔
          p ∈ c1w_locals ∧ ¬ some p.2.hash ∈ c1w_remotes.map (fun r => r.recordHash)) ∧
    (∀ r : RRecord,
        some r ∈ stage_removes (c1w_remotes.map (fun r => r.recordHash)) (all_json_hashes c1w_locals)
            (c1w_remotes ++ created_records
              (stage_creates c1w_locals (c1w_remotes.map (fun r => r.recordHash)) none none false)) ↔
          r ∈ c1w_remotes ∧ stale_hash (all_json_hashes c1w_locals) r.recordHash = true) ∧
    (∀ i rec rOld, (i, rec) ∈ c1w_locals → rOld ∈ c1w_remotes →
        ¬ some rec.hash ∈ c1w_remotes.map (fun r => r.recordHash) →
        stale_hash (all_json_hashes c1w_locals) rOld.recordHash = true →
          (i, rec) ∈ stage_creates c1w_locals (c1w_remotes.map (fun r => r.recordHash)) none none false ∧
          some rOld ∈ stage_removes (c1w_remotes.map (fun r => r.recordHash)) (all_json_hashes c1w_locals)
            (c1w_remotes ++ created_records
              (stage_creates c1w_locals (c1w_remotes.map (fun r => r.recordHash)) none none false)))) :=
  ⟨by decide, claim_C1_amended c1w_locals c1w_remotes (by decide)⟩

/-! ## C5: create batching at the failing input -/

/-! ## Structured search and identity resolution (bf_io.py 108-141,
parse_json.py 258-294)

`search_for_records` posts a structured field-equality filter and, when the
response holds more than one record, raises a plain
`Exception('More than one search result, this is unlikely to happen')`;
one record resolves to that record, an empty response to `None`.  The
platform's response is modelled as the list of matching records.

`get_record_id_from_node` first consults the per-run record cache; on a
miss, if the cache for the model is empty it fetches a single page
`model.get_all(limit=500)` (no offset, no pagination) into the cache, then
runs the type-specific local search (`find_target_record_locally`, passed
here as a function on the cache), and finally falls back to the remote
structured search, caching a hit under the json id.  Exceptions propagate:
nothing in the resolver or its callers below the per-dataset handler
catches the multi-match exception. -/

def search_for_records (records : List RRecord) : Except String (Option RRecord) :=
  if records.isEmpty then .ok none
  else if records.length > 1 then
    .error "More than one search result, this is unlikely to happen"
  else .ok records.head?

def bulk_fetch_cache (store : List RRecord) : List (String × RRecord) :=
  (model_get_all store 500 0).map (fun r => (r.id, r))

def resolver_cache (cache : List (String × RRecord)) (store : List RRecord) :
    List (String × RRecord) :=
  if cache.isEmpty then bulk_fetch_cache store else cache

def get_record_id_from_node (cache : List (String × RRecord)) (store : List RRecord)
    (find_locally : List (String × RRecord) → Option RRecord)
    (search_result : List RRecord) (json_id : String) :
    Except String (Option String × List (String × RRecord)) :=
  match cache.lookup json_id with
  | some record => .ok (some record.id, cache)
  | none =>
    let cache1 := resolver_cache cache store
    match find_locally cache1 with
    | some result => .ok (some result.id, cache1)
    | none =>
      match search_for_records search_result with
      | .error e => .error e
      | .ok none => .ok (none, cache1)
      | .ok (some result) => .ok (some result.id, cache1 ++ [(json_id, result)])

/-- C6 (amended): when the structured remote search yields more than one
match, `search_for_records` raises a plain `Exception` rather than silently
picking one of the matches — but the resolver does not catch it, so the
condition is not treated like "not found": the exception propagates out of
`get_record_id_from_node` (up to the per-dataset handler of
`update_datasets`, which fails the whole dataset), whereas "not found"
returns `None` non-fatally. -/
theorem claim_C6_amended (cache : List (String × RRecord)) (store : List RRecord)
    (find_locally : List (String × RRecord) → Option RRecord)
    (search_result : List RRecord) (json_id : String)
    (hc : cache.lookup json_id = none)
    (hfl : find_locally (resolver_cache cache store) = none)
    (h2 : 1 < search_result.length) :
    get_record_id_from_node cache store find_locally search_result json_id =
      .error "More than one search result, this is unlikely to happen" := by
  have hne : search_result.isEmpty = false := by
    cases search_result with
    | nil => simp at h2
    | cons a t => simp
  unfold get_record_id_from_node
  rw [hc]
  simp only []
  rw [hfl]
  simp [search_for_records, hne, h2]

def c6_two_matches : List RRecord :=
  [{ id := "recA", recordHash := some "h1" }, { id := "recB", recordHash := some "h1" }]

/-- C6 counterexample: with an empty cache, empty store and a local search
that finds nothing, a two-match search response makes the resolver return
the raised exception, while a no-match response returns `None`
successfully — the two conditions are not treated identically, refuting the
claim that a multi-match search is handled like "not found". -/
theorem claim_C6_counterexample :
    get_record_id_from_node [] [] (fun _ => none) c6_two_matches "X" =
      .error "More than one search result, this is unlikely to happen" ∧
    get_record_id_from_node [] [] (fun _ => none) [] "X" = .ok (none, []) ∧
    (Except.error "More than one search result, this is unlikely to happen" :
        Except String (Option String × List (String × RRecord))) ≠ .ok (none, []) := by
  refine ⟨rfl, rfl, ?_⟩
  intro h
  cases h

/-- C6 witness: the amended statement applied at concrete inputs with a
two-match search response. -/
theorem claim_C6_amended_witness :
    (([] : List (String × RRecord)).lookup "X" = none ∧
      (fun _ => (none : Option RRecord)) (resolver_cache [] []) = none ∧
      1 < c6_two_matches.length) ∧
    get_record_id_from_node [] [] (fun _ => none) c6_two_matches "X" =
      .error "More than one search result, this is unlikely to happen" :=
  ⟨⟨rfl, rfl, by decide⟩, claim_C6_amended [] [] (fun _ => none) c6_two_matches "X" rfl rfl (by decide)⟩

/-- C10: the identity resolver's lazy bulk fetch on an empty per-run cache
retrieves a single page of at most 500 records (`model.get_all(limit=500)`,
no pagination), so any record beyond the first 500 of the model is absent
from the fetched cache and such a target is resolvable only through the
remote structured search (whose outcome alone determines the result once
the local search misses); by contrast the change-detection fetch
`get_all_records_from_remote` paginates through the whole store in pages of
500 and returns every record's hash. -/
theorem claim_C10 (store : List RRecord)
    (find_locally : List (String × RRecord) → Option RRecord)
    (search_result : List RRecord) (json_id : String)
    (hnd : (store.map (fun r => r.id)).Nodup)
    (hfl : find_locally (bulk_fetch_cache store) = none) :
    bulk_fetch_cache store = (store.take 500).map (fun r => (r.id, r)) ∧
    (∀ r ∈ store.drop 500, ¬ r.id ∈ (bulk_fetch_cache store).map Prod.fst) ∧
    (get_all_records_from_remote store).1 = store.map (fun r => r.recordHash) ∧
    (search_result = [] →
      get_record_id_from_node [] store find_locally search_result json_id =
        .ok (none, bulk_fetch_cache store)) ∧
    (∀ res, search_result = [res] →
      get_record_id_from_node [] store find_locally search_result json_id =
        .ok (some res.id, bulk_fetch_cache store ++ [(json_id, res)])) := by
  have hcache : bulk_fetch_cache store = (store.take 500).map (fun r => (r.id, r)) := by
    simp [bulk_fetch_cache, model_get_all]
  have hrc : resolver_cache [] store = bulk_fetch_cache store := by
    simp [resolver_cache]
  refine ⟨hcache, ?_, get_all_records_from_remote_fst store, ?_, ?_⟩
  · have hsplit : store.map (fun r => r.id) =
        (store.take 500).map (fun r => r.id) ++ (store.drop 500).map (fun r => r.id) := by
      rw [← List.map_append, List.take_append_drop]
    rw [hsplit] at hnd
    have hdisj := (List.nodup_append.mp hnd).2.2
    intro r hr hmem
    have hkeys : (bulk_fetch_cache store).map Prod.fst = (store.take 500).map (fun r => r.id) := by
      rw [hcache, List.map_map]
      rfl
    rw [hkeys] at hmem
    exact hdisj hmem (List.mem_map_of_mem _ hr)
  · intro hsr
    subst hsr
    unfold get_record_id_from_node
    simp only [List.lookup_nil, hrc]
    rw [hfl]
    simp [search_for_records]
  · intro res hsr
    subst hsr
    unfold get_record_id_from_node
    simp only [List.lookup_nil, hrc]
    rw [hfl]
    simp [search_for_records]

def c10w_store : List RRecord := [{ id := "r1", recordHash := some "h1" }]

/-- C10 witness: the resolver contrast instantiated at a concrete one-record
store with an empty search response. -/
theorem claim_C10_witness :
    ((c10w_store.map (fun r => r.id)).Nodup ∧
      (fun _ => (none : Option RRecord)) (bulk_fetch_cache c10w_store) = none) ∧
    (bulk_fetch_cache c10w_store = (c10w_store.take 500).map (fun r => (r.id, r)) ∧
    (∀ r ∈ c10w_store.drop 500, ¬ r.id ∈ (bulk_fetch_cache c10w_store).map Prod.fst) ∧
    (get_all_records_from_remote c10w_store).1 = c10w_store.map (fun r => r.recordHash) ∧
    (([] : List RRecord) = [] →
      get_record_id_from_node [] c10w_store (fun _ => none) [] "X" =
        .ok (none, bulk_fetch_cache c10w_store)) ∧
    (∀ res, ([] : List RRecord) = [res] →
      get_record_id_from_node [] c10w_store (fun _ => none) [] "X" =
        .ok (some res.id, bulk_fetch_cache c10w_store ++ [("X", res)]))) :=
  ⟨⟨by decide, rfl⟩, claim_C10 c10w_store (fun _ => none) [] "X" (by decide) rfl⟩

set_option maxRecDepth 10000 in
/-- C5 (code bug): the batching code comments `Add batches of max 100
records`, but `nr_batches = floor(len/100)` combined with the guard
`if nr_batches > 1` sends any staged-create list of 101-199 records as one
single `create_records` call.  Evaluated at a 150-record list: exactly one
call is issued, it carries all 150 records (exceeding the fixed batch size
of 100), while the calls together still cover the staged list exactly
once. -/
theorem claim_C5_eval :
    create_records_calls (List.range 150) = [List.range 150] ∧
    (∃ b ∈ create_records_calls (List.range 150), 100 < b.length) ∧
    (create_records_calls (List.range 150)).flatten = List.range 150 := by
  decide

/-! ## Per-dataset orchestration (parse_json.py 56-210, 521-603; base.py
214-229; bf_io.py 90-104)

`update_datasets` iterates the snapshot's datasets.  Per dataset it gets or
creates the sync record, computes `update_recs` — for each of the eight
entity-type names, whether `get_recordset_hash(node[m])` differs from the
sync record's stored hash (all `True` under `force_update`; `force_model`
additionally forces one key) — and, if any flag is set, gets/creates the
platform dataset, checks (in `prod` only) that the curation team has
manager access, runs `add_data` over the seven record models in order, then
`add_links`, `add_tags`, and finally `sync_rec.update()`, which is the only
call persisting the per-entity-type ledger hashes.

Remote-call failures during one entity type's reconciliation take one of
two paths.  Inside `update_records`, the single-batch `create_records`
call — the branch taken for every staged-create list of 1-199 records —
sits in its own `try/except Exception` (parse_json.py 484-487) that only
logs `Unable to add records`: control returns normally, `add_data` still
executes `sync_rec._set_value` with the entity type's new hash, the
remaining entity types run, and `update_record_files` (507-518) swallows
its failures the same way.  Every other remote-call failure (the paginated
fetch, model creation, the multi-batch create loop, `delete_records`,
links, tags) propagates: `add_data` has no other handler, so the exception
reaches the per-dataset `try/except` of `update_datasets`, which marks the
dataset failed and skips everything after the point of failure, including
`sync_rec.update()`.  The remote platform is represented by the
per-dataset input below; the failure behaviour of one entity type's
reconciliation is injected through `failAt` as a `FailMode`.  The values
of `get_recordset_hash` (a helper imported from `base` but absent from the
sources) enter only through the comparison with the sync record, so they
are passed in as the already-computed `nodeHash`. -/

/-- How the remote calls of one entity type's reconciliation behave:
all succeed; the single-batch `create_records` call fails but is caught
and logged at parse_json.py 484-487 (`swallowedCreate`); or some other
remote call fails and the exception propagates out of `add_data`
(`raising`). -/
inductive FailMode where
  | noFail
  | swallowedCreate
  | raising
  deriving DecidableEq, Repr

structure Team where
  name : String
  role : String
  deriving DecidableEq, Repr

/-- `has_bf_access` (base.py 214-229): some collaborator team is the SPARC
Data Curation Team with the manager role. -/
def has_bf_access (teams : List Team) : Bool :=
  teams.any (fun team => team.name == "SPARC Data Curation Team" && team.role == "manager")

structure DatasetResponse where
  publicationStatus : String
  deriving DecidableEq, Repr

/-- `get_publication_status` (bf_io.py 90-104): returns
`response['publication']['status']` for the dataset.  Defined in the
sources but never called by `update_datasets` or anything else. -/
def get_publication_status (response : DatasetResponse) : String :=
  response.publicationStatus

structure DsInput where
  nodeHash : String → String
  syncRecExists : Bool
  syncHash : String → Option String
  env : String
  teams : List Team
  pubInfo : DatasetResponse
  platformId : String
  failAt : String → FailMode

def modelNames8 : List String :=
  ["protocol", "term", "researcher", "subject", "sample", "award", "summary", "tag"]

def dataModels7 : List String :=
  ["protocol", "term", "researcher", "subject", "sample", "award", "summary"]

def update_recs_val (force_update : Bool) (inp : DsInput) (m : String) : Bool :=
  if force_update then true else !(inp.syncHash m == some (inp.nodeHash m))

def update_recs_fn (force_update : Bool) (force_model : String) (inp : DsInput) (m : String) : Bool :=
  if !(force_model == "") && m == force_model then true
  else update_recs_val force_update inp m

/-- The keys of the `update_recs` dict: the eight model names, plus the
forced model name when `force_model` is set to something else (the
assignment `update_recs[force_model] = True` adds the key). -/
def update_recs_keys (force_model : String) : List String :=
  if force_model == "" || modelNames8.contains force_model then modelNames8
  else modelNames8 ++ [force_model]

def any_update (force_update : Bool) (force_model : String) (inp : DsInput) : Bool :=
  (update_recs_keys force_model).any (update_recs_fn force_update force_model inp)

inductive Call where
  | syncRecCreate
  | getCreateDataset
  | entityWrite (m : String)
  | linkWrite (grp : String)
  | tagWrite
  | syncRecUpdate
  deriving DecidableEq, Repr

structure AddDataState where
  completed : List String
  lostCreates : List String
  calls : List Call
  raised : Bool
  deriving DecidableEq, Repr

/-- The `add_data` iteration over the seven record models in source order.
A model with its update flag set has its records reconciled (remote write
calls, summarised as one `entityWrite`).  Under `noFail` the model
completes; under `swallowedCreate` the single-batch `create_records`
failure is caught and logged inside `update_records`, the staged creates
are lost, but the model still completes — the deletes run and `add_data`
executes `sync_rec._set_value` for it — so it joins both `completed` and
`lostCreates`; under `raising` the exception aborts `add_data`, leaving
the remaining models unprocessed.  `completed` holds the models whose
`add_X` returned (their ledger value was set), `raised` whether an
exception escaped. -/
def add_data_go (upd : String → Bool) (failAt : String → FailMode) :
    List String → AddDataState
  | [] => { completed := [], lostCreates := [], calls := [], raised := false }
  | m :: rest =>
    if upd m then
      match failAt m with
      | .raising => { completed := [], lostCreates := [], calls := [], raised := true }
      | .swallowedCreate =>
        let r := add_data_go upd failAt rest
        { completed := m :: r.completed, lostCreates := m :: r.lostCreates,
          calls := Call.entityWrite m :: r.calls, raised := r.raised }
      | .noFail =>
        let r := add_data_go upd failAt rest
        { completed := m :: r.completed, lostCreates := r.lostCreates,
          calls := Call.entityWrite m :: r.calls, raised := r.raised }
    else add_data_go upd failAt rest

/-- The `add_links` groups (parse_json.py 605-637): summary links when any
of summary/term/award/researcher updated, subject links when
subject/term updated, sample links when sample/term/subject updated. -/
def add_links_calls (upd : String → Bool) : List Call :=
  (if upd "summary" || upd "term" || upd "award" || upd "researcher" then
    [Call.linkWrite "summary"] else []) ++
  (if upd "subject" || upd "term" then [Call.linkWrite "subject"] else []) ++
  (if upd "sample" || upd "term" || upd "subject" then [Call.linkWrite "sample"] else [])

structure DsResult where
  calls : List Call
  failed : Bool
  completedModels : List String
  lostCreateModels : List String
  ledgerPersisted : Bool
  skipped : Bool
  deriving DecidableEq, Repr

/-- One iteration of the dataset loop of `update_datasets`: get-or-create
the sync record, compute `update_recs`; if nothing is flagged, log and move
on with no remote call; otherwise get/create the platform dataset, apply
the prod-only manager-access check (`continue` on failure), run `add_data`
(the per-dataset `except` catches a propagating exception, marking the
dataset failed), then links, tags, and `sync_rec.update()`, which persists
the ledger value of every completed model — including one whose staged
creates were lost to a swallowed `create_records` failure.  The dataset's
publication status (`inp.pubInfo`) is never consulted. -/
def process_dataset (force_update : Bool) (force_model : String) (inp : DsInput) : DsResult :=
  let pre : List Call := if inp.syncRecExists then [] else [Call.syncRecCreate]
  if any_update force_update force_model inp then
    if inp.env == "prod" && !(has_bf_access inp.teams) then
      { calls := pre ++ [Call.getCreateDataset], failed := false, completedModels := [],
        lostCreateModels := [], ledgerPersisted := false, skipped := true }
    else
      let r := add_data_go (update_recs_fn force_update force_model inp) inp.failAt dataModels7
      if r.raised then
        { calls := pre ++ [Call.getCreateDataset] ++ r.calls, failed := true,
          completedModels := r.completed, lostCreateModels := r.lostCreates,
          ledgerPersisted := false, skipped := false }
      else
        { calls := pre ++ [Call.getCreateDataset] ++ r.calls ++
            add_links_calls (update_recs_fn force_update force_model inp) ++
            (if update_recs_fn force_update force_model inp "tag" then [Call.tagWrite] else []) ++
            [Call.syncRecUpdate],
          failed := false, completedModels := r.completed, lostCreateModels := r.lostCreates,
          ledgerPersisted := true, skipped := false }
  else
    { calls := pre, failed := false, completedModels := [], lostCreateModels := [],
      ledgerPersisted := false, skipped := false }

/-- Modelled from the spec: `get_resume_list` is imported from `base` in
`parse_json.py` but absent from the sources; per the spec's Progress Ledger
section it reads the persisted list of completed dataset ids, so it is
modelled as returning the persisted document it is given. -/
def get_resume_list (persisted : List String) : List String := persisted

/-- The dataset loop: a dataset already in `updated_ds_list` is skipped
before any processing (`continue`); after processing, the platform dataset
id is appended to the list (the permission `continue` skips the append). -/
def update_datasets_go (force_update : Bool) (force_model : String) :
    List (String × DsInput) → List String → List (String × DsResult)
  | [], _ => []
  | (dsId, inp) :: rest, updated =>
    if updated.contains dsId then update_datasets_go force_update force_model rest updated
    else
      (dsId, process_dataset force_update force_model inp) ::
        update_datasets_go force_update force_model rest
          (if (process_dataset force_update force_model inp).skipped then updated
           else updated ++ [inp.platformId])

/-- `update_datasets` (full-run option): on a resume-flagged run the
persisted progress list is read first and seeds `updated_ds_list`; on a
fresh run the list starts empty. -/
def update_datasets (newJson : List (String × DsInput)) (force_update : Bool)
    (force_model : String) (resume : Bool) (persisted : List String) :
    List (String × DsResult) :=
  update_datasets_go force_update force_model newJson
    (if resume then get_resume_list persisted else [])

/-- The model `m` raises out of `add_data`: it is updated and its failure
mode is the propagating one. -/
def raisesAt (upd : String → Bool) (failAt : String → FailMode) (m : String) : Bool :=
  upd m && (failAt m == FailMode.raising)

/-- When some updated model's remote call fails with a propagating
exception, `add_data` completes exactly the updated models strictly before
the first raising one and raises. -/
theorem add_data_go_of_raise (upd : String → Bool) (failAt : String → FailMode)
    (l : List String) (hl : ∃ m ∈ l, raisesAt upd failAt m = true) :
    add_data_go upd failAt l =
      { completed := (l.takeWhile (fun m => !raisesAt upd failAt m)).filter upd,
        lostCreates := ((l.takeWhile (fun m => !raisesAt upd failAt m)).filter upd).filter
          (fun m => failAt m == FailMode.swallowedCreate),
        calls := ((l.takeWhile (fun m => !raisesAt upd failAt m)).filter upd).map
          Call.entityWrite,
        raised := true } := by
  induction l with
  | nil => rcases hl with ⟨m, hm, _⟩; cases hm
  | cons a t ih =>
    by_cases hu : upd a = true
    · cases hfa : failAt a with
      | raising =>
        have hra : raisesAt upd failAt a = true := by simp [raisesAt, hu, hfa]
        simp [add_data_go, hu, hfa, hra, List.takeWhile_cons]
      | noFail =>
        have hra : raisesAt upd failAt a = false := by simp [raisesAt, hfa]
        have ht : ∃ m ∈ t, raisesAt upd failAt m = true := by
          rcases hl with ⟨m, hm, hcond⟩
          rcases List.mem_cons.mp hm with rfl | hmt
          · rw [hra] at hcond; cases hcond
          · exact ⟨m, hmt, hcond⟩
        simp [add_data_go, hu, hfa, hra, List.takeWhile_cons, List.filter_cons, ih ht]
      | swallowedCreate =>
        have hra : raisesAt upd failAt a = false := by simp [raisesAt, hfa]
        have ht : ∃ m ∈ t, raisesAt upd failAt m = true := by
          rcases hl with ⟨m, hm, hcond⟩
          rcases List.mem_cons.mp hm with rfl | hmt
          · rw [hra] at hcond; cases hcond
          · exact ⟨m, hmt, hcond⟩
        simp [add_data_go, hu, hfa, hra, List.takeWhile_cons, List.filter_cons, ih ht]
    · have hu' : upd a = false := by simpa using hu
      have hra : raisesAt upd failAt a = false := by simp [raisesAt, hu']
      have ht : ∃ m ∈ t, raisesAt upd failAt m = true := by
        rcases hl with ⟨m, hm, hcond⟩
        rcases List.mem_cons.mp hm with rfl | hmt
        · rw [hra] at hcond; cases hcond
        · exact ⟨m, hmt, hcond⟩
      simp [add_data_go, hu', hra, List.takeWhile_cons, List.filter_cons, ih ht]

/-- When no updated model's failure propagates, `add_data` returns
normally: every updated model completes — those whose single-batch create
failure was swallowed are completed with their staged creates lost — and
nothing is raised. -/
theorem add_data_go_of_no_raise (upd : String → Bool) (failAt : String → FailMode)
    (l : List String) (hl : ∀ m ∈ l, raisesAt upd failAt m = false) :
    add_data_go upd failAt l =
      { completed := l.filter upd,
        lostCreates := (l.filter upd).filter (fun m => failAt m == FailMode.swallowedCreate),
        calls := (l.filter upd).map Call.entityWrite,
        raised := false } := by
  induction l with
  | nil => simp [add_data_go]
  | cons a t ih =>
    have hta : ∀ m ∈ t, raisesAt upd failAt m = false :=
      fun m hm => hl m (List.mem_cons_of_mem a hm)
    have ha := hl a (List.mem_cons_self a t)
    by_cases hu : upd a = true
    · cases hfa : failAt a with
      | raising => simp [raisesAt, hu, hfa] at ha
      | noFail => simp [add_data_go, hu, hfa, List.filter_cons, ih hta]
      | swallowedCreate => simp [add_data_go, hu, hfa, List.filter_cons, ih hta]
    · have hu' : upd a = false := by simpa using hu
      simp [add_data_go, hu', List.filter_cons, ih hta]

/-- C2: if the recordset hash of every entity type equals the sync record's
stored hash and neither `force_update` nor a force model is set, every
`update_recs` flag is false and the dataset is skipped with zero remote
calls (given the sync record exists — it carries the matching hashes). -/
theorem claim_C2 (inp : DsInput)
    (hex : inp.syncRecExists = true)
    (heq : ∀ m ∈ modelNames8, inp.syncHash m = some (inp.nodeHash m)) :
    (process_dataset false "" inp).calls = [] := by
  have hval : ∀ m ∈ modelNames8, update_recs_fn false "" inp m = false := by
    intro m hm
    simp [update_recs_fn, update_recs_val, heq m hm]
  have hkeys : update_recs_keys "" = modelNames8 := by
    simp [update_recs_keys]
  have hany : any_update false "" inp = false := by
    rw [any_update, hkeys, List.any_eq_false]
    intro m hm
    simp [hval m hm]
  simp [process_dataset, hany, hex]

def c2w_input : DsInput :=
  { nodeHash := fun _ => "h"
  , syncRecExists := true
  , syncHash := fun _ => some "h"
  , env := "prod"
  , teams := [{ name := "SPARC Data Curation Team", role := "manager" }]
  , pubInfo := { publicationStatus := "COMPLETED" }
  , platformId := "N:dataset:1"
  , failAt := fun _ => FailMode.noFail }

/-- C2 witness: an unchanged snapshot with a matching sync record issues no
remote call. -/
theorem claim_C2_witness :
    (c2w_input.syncRecExists = true ∧
      ∀ m ∈ modelNames8, c2w_input.syncHash m = some (c2w_input.nodeHash m)) ∧
    (process_dataset false "" c2w_input).calls = [] :=
  ⟨⟨rfl, fun _ _ => rfl⟩, claim_C2 c2w_input rfl (fun _ _ => rfl)⟩

def c3_input : DsInput :=
  { nodeHash := fun _ => "h1"
  , syncRecExists := true
  , syncHash := fun _ => none
  , env := "dev"
  , teams := []
  , pubInfo := { publicationStatus := "COMPLETED" }
  , platformId := "N:dataset:2"
  , failAt := fun m => if m == "term" then FailMode.raising else FailMode.noFail }

def c3_swallow_input : DsInput :=
  { nodeHash := fun _ => "h1"
  , syncRecExists := true
  , syncHash := fun _ => none
  , env := "dev"
  , teams := []
  , pubInfo := { publicationStatus := "COMPLETED" }
  , platformId := "N:dataset:5"
  , failAt := fun m => if m == "term" then FailMode.swallowedCreate else FailMode.noFail }

/-- C3 counterexample, refuting the claim on both of the code's error
paths.  Every entity type needs an update; the remote call that fails is
`term`'s.  First a propagating failure (the paginated fetch, model
creation, a multi-batch create or `delete_records`): `researcher` — due
for update, its own calls not failing — is never processed, the whole
dataset is marked failed, and `sync_rec.update()` is skipped, so even
`protocol`'s ledger hash (applied before the failure) is left unchanged;
the claim said only `term` is marked failed and processing continues.
Second a single-batch `create_records` failure (staged lists of 1-199
records), which parse_json.py 484-487 catches and only logs: the dataset
is not marked failed and `term`'s ledger hash — despite its lost
records — is still set and persisted by `sync_rec.update()`, so `term` is
not retried next run; the claim said the failed type's ledger hash is left
unchanged so that it is retried. -/
theorem claim_C3_counterexample :
    update_recs_fn false "" c3_input "researcher" = true ∧
    c3_input.failAt "researcher" = FailMode.noFail ∧
    (process_dataset false "" c3_input).failed = true ∧
    ¬ "researcher" ∈ (process_dataset false "" c3_input).completedModels ∧
    "protocol" ∈ (process_dataset false "" c3_input).completedModels ∧
    (process_dataset false "" c3_input).ledgerPersisted = false ∧
    ¬ Call.syncRecUpdate ∈ (process_dataset false "" c3_input).calls ∧
    c3_swallow_input.failAt "term" = FailMode.swallowedCreate ∧
    update_recs_fn false "" c3_swallow_input "term" = true ∧
    (process_dataset false "" c3_swallow_input).failed = false ∧
    "term" ∈ (process_dataset false "" c3_swallow_input).lostCreateModels ∧
    "term" ∈ (process_dataset false "" c3_swallow_input).completedModels ∧
    (process_dataset false "" c3_swallow_input).ledgerPersisted = true ∧
    Call.syncRecUpdate ∈ (process_dataset false "" c3_swallow_input).calls := by
  decide

/-- C3 (amended): a remote-call failure while reconciling one entity type
takes one of two paths.  If no failure propagates (in particular when the
failing call is the single-batch `create_records`, swallowed at
parse_json.py 484-487), the dataset is not marked failed, every updated
entity type completes, the types with a swallowed create failure are
exactly those whose staged creates were lost, and `sync_rec.update()` runs
and persists every updated type's new ledger hash — including the failed
type's, so its lost records are not retried next run.  If some updated
type's failure propagates (fetch, model creation, multi-batch creates,
bulk delete), the dataset is marked failed at the per-dataset handler, the
updated types strictly before the first raising one are the only completed
ones, and `sync_rec.update()` is never reached, so no ledger hash is
persisted and the whole dataset is retried next run. -/
theorem claim_C3_amended (force_update : Bool) (force_model : String) (inp : DsInput)
    (hany : any_update force_update force_model inp = true)
    (hacc : (inp.env == "prod" && !(has_bf_access inp.teams)) = false) :
    ((∀ m ∈ dataModels7,
        raisesAt (update_recs_fn force_update force_model inp) inp.failAt m = false) →
      (process_dataset force_update force_model inp).failed = false ∧
      (process_dataset force_update force_model inp).ledgerPersisted = true ∧
      (process_dataset force_update force_model inp).completedModels =
        dataModels7.filter (update_recs_fn force_update force_model inp) ∧
      (process_dataset force_update force_model inp).lostCreateModels =
        (dataModels7.filter (update_recs_fn force_update force_model inp)).filter
          (fun m => inp.failAt m == FailMode.swallowedCreate) ∧
      Call.syncRecUpdate ∈ (process_dataset force_update force_model inp).calls) ∧
    ((∃ m ∈ dataModels7,
        raisesAt (update_recs_fn force_update force_model inp) inp.failAt m = true) →
      (process_dataset force_update force_model inp).failed = true ∧
      (process_dataset force_update force_model inp).ledgerPersisted = false ∧
      (process_dataset force_update force_model inp).completedModels =
        (dataModels7.takeWhile
          (fun m => !raisesAt (update_recs_fn force_update force_model inp) inp.failAt m)).filter
          (update_recs_fn force_update force_model inp) ∧
      ¬ Call.syncRecUpdate ∈ (process_dataset force_update force_model inp).calls) := by
  constructor
  · intro h
    have hgo := add_data_go_of_no_raise (update_recs_fn force_update force_model inp)
      inp.failAt dataModels7 h
    refine ⟨?_, ?_, ?_, ?_, ?_⟩ <;> simp [process_dataset, hany, hacc, hgo]
  · intro h
    have hgo := add_data_go_of_raise (update_recs_fn force_update force_model inp)
      inp.failAt dataModels7 h
    refine ⟨?_, ?_, ?_, ?_⟩ <;> simp [process_dataset, hany, hacc, hgo]

/-- C3 witness: both paths of the amended statement at concrete inputs —
a swallowed single-batch create failure at `term` (dataset continues,
`term` completed with its creates lost, ledger persisted) and a
propagating failure at `term` (dataset aborted, only `protocol` completed,
nothing persisted). -/
theorem claim_C3_amended_witness :
    (any_update false "" c3_swallow_input = true ∧
      (c3_swallow_input.env == "prod" && !(has_bf_access c3_swallow_input.teams)) = false ∧
      (∀ m ∈ dataModels7,
        raisesAt (update_recs_fn false "" c3_swallow_input) c3_swallow_input.failAt m = false) ∧
      ((process_dataset false "" c3_swallow_input).failed = false ∧
       (process_dataset false "" c3_swallow_input).ledgerPersisted = true ∧
       (process_dataset false "" c3_swallow_input).completedModels =
         dataModels7.filter (update_recs_fn false "" c3_swallow_input) ∧
       (process_dataset false "" c3_swallow_input).lostCreateModels =
         (dataModels7.filter (update_recs_fn false "" c3_swallow_input)).filter
           (fun m => c3_swallow_input.failAt m == FailMode.swallowedCreate) ∧
       Call.syncRecUpdate ∈ (process_dataset false "" c3_swallow_input).calls)) ∧
    (any_update false "" c3_input = true ∧
      (c3_input.env == "prod" && !(has_bf_access c3_input.teams)) = false ∧
      (∃ m ∈ dataModels7,
        raisesAt (update_recs_fn false "" c3_input) c3_input.failAt m = true) ∧
      ((process_dataset false "" c3_input).failed = true ∧
       (process_dataset false "" c3_input).ledgerPersisted = false ∧
       (process_dataset false "" c3_input).completedModels =
         (dataModels7.takeWhile
           (fun m => !raisesAt (update_recs_fn false "" c3_input) c3_input.failAt m)).filter
           (update_recs_fn false "" c3_input) ∧
       ¬ Call.syncRecUpdate ∈ (process_dataset false "" c3_input).calls)) :=
  ⟨⟨by decide, by decide, by decide,
    (claim_C3_amended false "" c3_swallow_input (by decide) (by decide)).1 (by decide)⟩,
   ⟨by decide, by decide, by decide,
    (claim_C3_amended false "" c3_input (by decide) (by decide)).2 (by decide)⟩⟩

def c4_input : DsInput :=
  { nodeHash := fun _ => "h1"
  , syncRecExists := true
  , syncHash := fun _ => none
  , env := "dev"
  , teams := []
  , pubInfo := { publicationStatus := "requested" }
  , platformId := "N:dataset:3"
  , failAt := fun _ => FailMode.noFail }

/-- C4 counterexample: a dataset whose publication status is a lock state
(`requested`) and whose collaborators give the curation team no manager
access, processed outside `prod`.  The claim says either failing check
skips the whole dataset with no remote writes and no ledger change — yet
record writes are issued and the sync record is updated: the orchestrator
never consults `get_publication_status`, and the access check only runs
when `cfg.env == 'prod'`. -/
theorem claim_C4_counterexample :
    has_bf_access c4_input.teams = false ∧
    get_publication_status c4_input.pubInfo = "requested" ∧
    Call.entityWrite "protocol" ∈ (process_dataset false "" c4_input).calls ∧
    Call.syncRecUpdate ∈ (process_dataset false "" c4_input).calls ∧
    (process_dataset false "" c4_input).ledgerPersisted = true := by
  decide

/-- C4 (amended): only in the production environment, after the get-or-create
dataset call but before any record write, the orchestrator checks that the
curation team has manager access (`has_bf_access`); if that fails the
dataset is skipped (`continue`) with no further remote writes and no ledger
change.  No publication/lock check is performed anywhere —
`get_publication_status` exists in `bf_io.py` but has no caller — and in
non-production environments no authorization check is made either. -/
theorem claim_C4_amended (force_update : Bool) (force_model : String) (inp : DsInput)
    (hprod : inp.env = "prod") (hacc : has_bf_access inp.teams = false)
    (hany : any_update force_update force_model inp = true) :
    (process_dataset force_update force_model inp).skipped = true ∧
    (process_dataset force_update force_model inp).calls =
      (if inp.syncRecExists then [] else [Call.syncRecCreate]) ++ [Call.getCreateDataset] ∧
    (∀ m, ¬ Call.entityWrite m ∈ (process_dataset force_update force_model inp).calls) ∧
    (process_dataset force_update force_model inp).ledgerPersisted = false ∧
    ¬ Call.syncRecUpdate ∈ (process_dataset force_update force_model inp).calls := by
  have hcond : (inp.env == "prod" && !(has_bf_access inp.teams)) = true := by
    simp [hprod, hacc]
  refine ⟨?_, ?_, ?_, ?_, ?_⟩ <;> simp [process_dataset, hany, hcond]

def c4w_input : DsInput :=
  { nodeHash := fun _ => "h1"
  , syncRecExists := true
  , syncHash := fun _ => none
  , env := "prod"
  , teams := [{ name := "SPARC Data Curation Team", role := "viewer" }]
  , pubInfo := { publicationStatus := "COMPLETED" }
  , platformId := "N:dataset:4"
  , failAt := fun _ => FailMode.noFail }

/-- C4 witness: in `prod`, with the curation team present but not manager,
the dataset is skipped after the get-or-create call with no record writes
and no ledger change. -/
theorem claim_C4_amended_witness :
    (c4w_input.env = "prod" ∧ has_bf_access c4w_input.teams = false ∧
      any_update false "" c4w_input = true) ∧
    ((process_dataset false "" c4w_input).skipped = true ∧
    (process_dataset false "" c4w_input).calls =
      (if c4w_input.syncRecExists then [] else [Call.syncRecCreate]) ++ [Call.getCreateDataset] ∧
    (∀ m, ¬ Call.entityWrite m ∈ (process_dataset false "" c4w_input).calls) ∧
    (process_dataset false "" c4w_input).ledgerPersisted = false ∧
    ¬ Call.syncRecUpdate ∈ (process_dataset false "" c4w_input).calls) :=
  ⟨⟨rfl, by decide, by decide⟩,
    claim_C4_amended false "" c4w_input rfl (by decide) (by decide)⟩

/-- C7: on a resume-flagged run the persisted progress list seeds
`updated_ds_list` before the dataset loop starts, and every dataset id
already present is skipped by the `continue` at the top of the loop, so the
run processes — and issues remote calls for — none of those datasets. -/
theorem claim_C7 (newJson : List (String × DsInput)) (persisted : List String)
    (force_update : Bool) (force_model : String) (dsId : String)
    (hmem : dsId ∈ persisted) :
    ∀ e ∈ update_datasets newJson force_update force_model true persisted, ¬ e.1 = dsId := by
  have hgen : ∀ (json : List (String × DsInput)) (updated : List String), dsId ∈ updated →
      ∀ e ∈ update_datasets_go force_update force_model json updated, ¬ e.1 = dsId := by
    intro json
    induction json with
    | nil =>
      intro updated _ e he
      cases he
    | cons hd t ih =>
      intro updated hupd e he
      rw [show hd = (hd.1, hd.2) from rfl] at he
      unfold update_datasets_go at he
      by_cases hc : updated.contains hd.1 = true
      · rw [if_pos hc] at he
        exact ih updated hupd e he
      · rw [if_neg hc] at he
        have hnotin : hd.1 ∉ updated := by simpa using hc
        rcases List.mem_cons.mp he with rfl | het
        · intro habs
          exact hnotin (by rw [habs]; exact hupd)
        · refine ih _ ?_ e het
          by_cases hs : (process_dataset force_update force_model hd.2).skipped = true
          · rw [if_pos hs]
            exact hupd
          · rw [if_neg hs]
            exact List.mem_append_left _ hupd
  intro e he
  have he2 : e ∈ update_datasets_go force_update force_model newJson persisted := by
    simpa [update_datasets, get_resume_list] using he
  exact hgen newJson persisted hmem e he2

def c7w_input : DsInput :=
  { nodeHash := fun _ => "h1"
  , syncRecExists := true
  , syncHash := fun _ => none
  , env := "dev"
  , teams := []
  , pubInfo := { publicationStatus := "COMPLETED" }
  , platformId := "dsX"
  , failAt := fun _ => FailMode.noFail }

def c7w_json : List (String × DsInput) := [("dsX", c7w_input)]

/-- C7 witness: a resumed run whose progress list already holds the only
dataset of the snapshot processes nothing for it. -/
theorem claim_C7_witness :
    "dsX" ∈ ["dsX"] ∧
    ∀ e ∈ update_datasets c7w_json false "" true ["dsX"], ¬ e.1 = "dsX" :=
  ⟨by decide, claim_C7 c7w_json ["dsX"] false "" "dsX" (by decide)⟩

/-! ## Link and relationship builder (parse_json.py 671-794)

`add_record_links` walks a record's linked properties.  Each value is a
string (one target), a list of target ids, `None` (skipped), or anything
else (raises `Exception('Incorrect type for links.')`).  Every target id is
resolved through `get_record_id_from_node` — abstracted here as the
function `resolve : targetType → json id → Option remote id`; an
unresolved id whose target model is `term` gets a placeholder record via
`add_random_terms` (abstracted as `placeholder`), any other unresolved id
is logged (`UNABLE to LINK ...`) and dropped.  Resolved ids contribute one
payload entry `{name: targetType, to: remote id}` (the schema link id of
the source entry is not modelled); the record issues a single
`create_links` call when the payload is non-empty.

`add_record_relationships` is analogous per relationship name, except that
the resolution block only runs when the target id is a key of the
snapshot's collection for the target model (`inSnapshot`), the failure
message is `UNABLE to RELATE ...`, the bad-value message is
`'Incorrect type for relationship node.'`, and non-empty target lists
become one `relate_to` call per relationship name. -/

inductive LinkVal where
  | vstr (s : String)
  | vlist (l : List String)
  | vnone
  | vother
  deriving DecidableEq, Repr

def linkValueList : LinkVal → List String
  | .vstr s => [s]
  | .vlist l => l
  | .vnone => []
  | .vother => []

structure LinkSpec where
  name : String
  targetType : String
  value : LinkVal
  deriving DecidableEq, Repr

structure LinkPayloadEntry where
  name : String
  toId : String
  deriving DecidableEq, Repr

def link_one (resolve : String → String → Option String) (placeholder : String → String)
    (targetType json_id : String) : Option LinkPayloadEntry × List String :=
  match resolve targetType json_id with
  | some rid => (some { name := targetType, toId := rid }, [])
  | none =>
    if targetType == "term" then
      (some { name := targetType, toId := placeholder json_id }, [])
    else (none, ["UNABLE to LINK " ++ json_id])

def links_payload (resolve : String → String → Option String) (placeholder : String → String)
    (links : List LinkSpec) : List LinkPayloadEntry :=
  links.flatMap (fun l =>
    ((linkValueList l.value).map (link_one resolve placeholder l.targetType)).filterMap Prod.fst)

def links_warnings (resolve : String → String → Option String) (placeholder : String → String)
    (links : List LinkSpec) : List String :=
  links.flatMap (fun l =>
    ((linkValueList l.value).map (link_one resolve placeholder l.targetType)).flatMap Prod.snd)

def add_record_links_go (resolve : String → String → Option String)
    (placeholder : String → String) :
    List LinkSpec → Except String (List LinkPayloadEntry × List String)
  | [] => .ok ([], [])
  | l :: rest =>
    match l.value with
    | .vother => .error "Incorrect type for links."
    | _ =>
      match add_record_links_go resolve placeholder rest with
      | .error e => .error e
      | .ok (pl, ws) =>
        .ok ((((linkValueList l.value).map (link_one resolve placeholder l.targetType)).filterMap Prod.fst) ++ pl,
             (((linkValueList l.value).map (link_one resolve placeholder l.targetType)).flatMap Prod.snd) ++ ws)

structure RelSpec where
  name : String
  targetType : String
  node : LinkVal
  deriving DecidableEq, Repr

def rel_one (resolve : String → String → Option String) (placeholder : String → String)
    (inSnapshot : String → String → Bool) (targetType json_id : String) :
    Option String × List String :=
  if inSnapshot targetType json_id then
    match resolve targetType json_id with
    | some rid => (some rid, [])
    | none =>
      if targetType == "term" then (some (placeholder json_id), [])
      else (none, ["UNABLE to RELATE " ++ json_id])
  else (none, [])

def rel_targets (resolve : String → String → Option String) (placeholder : String → String)
    (inSnapshot : String → String → Bool) (r : RelSpec) : List String :=
  (linkValueList r.node).filterMap
    (fun json_id => (rel_one resolve placeholder inSnapshot r.targetType json_id).1)

def rels_calls (resolve : String → String → Option String) (placeholder : String → String)
    (inSnapshot : String → String → Bool) (rels : List RelSpec) :
    List (String × List String) :=
  rels.filterMap (fun r =>
    if (rel_targets resolve placeholder inSnapshot r).isEmpty then none
    else some (r.name, rel_targets resolve placeholder inSnapshot r))

def rels_warnings (resolve : String → String → Option String) (placeholder : String → String)
    (inSnapshot : String → String → Bool) (rels : List RelSpec) : List String :=
  rels.flatMap (fun r =>
    (linkValueList r.node).flatMap
      (fun json_id => (rel_one resolve placeholder inSnapshot r.targetType json_id).2))

def add_record_relationships_go (resolve : String → String → Option String)
    (placeholder : String → String) (inSnapshot : String → String → Bool) :
    List RelSpec → Except String (List (String × List String) × List String)
  | [] => .ok ([], [])
  | r :: rest =>
    match r.node with
    | .vother => .error "Incorrect type for relationship node."
    | _ =>
      match add_record_relationships_go resolve placeholder inSnapshot rest with
      | .error e => .error e
      | .ok (cs, ws) =>
        .ok ((if (rel_targets resolve placeholder inSnapshot r).isEmpty then []
              else [(r.name, rel_targets resolve placeholder inSnapshot r)]) ++ cs,
             ((linkValueList r.node).flatMap
               (fun json_id => (rel_one resolve placeholder inSnapshot r.targetType json_id).2)) ++ ws)

theorem add_record_links_go_ok (resolve : String → String → Option String)
    (placeholder : String → String) (links : List LinkSpec)
    (hclean : ∀ l ∈ links, l.value ≠ LinkVal.vother) :
    add_record_links_go resolve placeholder links =
      .ok (links_payload resolve placeholder links, links_warnings resolve placeholder links) := by
  induction links with
  | nil => simp [add_record_links_go, links_payload, links_warnings]
  | cons l rest ih =>
    have hl : l.value ≠ LinkVal.vother := hclean l (List.mem_cons_self l rest)
    have hrest : ∀ x ∈ rest, x.value ≠ LinkVal.vother :=
      fun x hx => hclean x (List.mem_cons_of_mem l hx)
    rw [links_payload, links_warnings, List.flatMap_cons, List.flatMap_cons]
    cases hv : l.value with
    | vother => exact absurd hv hl
    | vstr s =>
      simp only [add_record_links_go, hv, ih hrest, links_payload, links_warnings]
    | vlist xs =>
      simp only [add_record_links_go, hv, ih hrest, links_payload, links_warnings]
    | vnone =>
      simp only [add_record_links_go, hv, ih hrest, links_payload, links_warnings]

theorem add_record_relationships_go_ok (resolve : String → String → Option String)
    (placeholder : String → String) (inSnapshot : String → String → Bool)
    (rels : List RelSpec)
    (hclean : ∀ r ∈ rels, r.node ≠ LinkVal.vother) :
    add_record_relationships_go resolve placeholder inSnapshot rels =
      .ok (rels_calls resolve placeholder inSnapshot rels,
           rels_warnings resolve placeholder inSnapshot rels) := by
  induction rels with
  | nil => simp [add_record_relationships_go, rels_calls, rels_warnings]
  | cons r rest ih =>
    have hr : r.node ≠ LinkVal.vother := hclean r (List.mem_cons_self r rest)
    have hrest : ∀ x ∈ rest, x.node ≠ LinkVal.vother :=
      fun x hx => hclean x (List.mem_cons_of_mem r hx)
    rw [rels_calls, rels_warnings, List.filterMap_cons, List.flatMap_cons]
    cases hv : r.node with
    | vother => exact absurd hv hr
    | vstr s =>
      simp only [add_record_relationships_go, hv, ih hrest, rels_calls, rels_warnings]
      by_cases he : (rel_targets resolve placeholder inSnapshot r).isEmpty <;> simp [he, hv]
    | vlist xs =>
      simp only [add_record_relationships_go, hv, ih hrest, rels_calls, rels_warnings]
      by_cases he : (rel_targets resolve placeholder inSnapshot r).isEmpty <;> simp [he, hv]
    | vnone =>
      simp only [add_record_relationships_go, hv, ih hrest, rels_calls, rels_warnings]
      by_cases he : (rel_targets resolve placeholder inSnapshot r).isEmpty <;> simp [he, hv]

theorem link_one_some (resolve : String → String → Option String)
    (placeholder : String → String) {tt id rid : String}
    (h : resolve tt id = some rid) :
    link_one resolve placeholder tt id = (some { name := tt, toId := rid }, []) := by
  rw [link_one, h]

theorem link_one_term_of_unresolved (resolve : String → String → Option String)
    (placeholder : String → String) {tt id : String}
    (h : resolve tt id = none) (ht : (tt == "term") = true) :
    link_one resolve placeholder tt id = (some { name := tt, toId := placeholder id }, []) := by
  rw [link_one, h]
  simp [ht]

theorem link_one_none_of_unresolved (resolve : String → String → Option String)
    (placeholder : String → String) {tt id : String}
    (h : resolve tt id = none) (ht : (tt == "term") = false) :
    link_one resolve placeholder tt id = (none, ["UNABLE to LINK " ++ id]) := by
  rw [link_one, h]
  simp [ht]

/-- C8: for a record processed by the link builder, a link or relationship
reference whose target cannot be resolved and whose target type is not
`term` is logged and dropped: the owning record's link pass completes
without raising (given its values are well-typed, i.e. strings, lists or
`None`), the other resolvable references still produce their payload
entries and relationship targets, the unresolved reference contributes no
payload entry (every payload entry traces to a resolved target or a `term`
placeholder), and the warning is collected instead. -/
theorem claim_C8 (resolve : String → String → Option String) (placeholder : String → String)
    (inSnapshot : String → String → Bool) (links : List LinkSpec) (rels : List RelSpec)
    (hclean : ∀ l ∈ links, l.value ≠ LinkVal.vother)
    (hcleanR : ∀ r ∈ rels, r.node ≠ LinkVal.vother)
    (l : LinkSpec) (hl : l ∈ links) (u : String) (hu : u ∈ linkValueList l.value)
    (hun : resolve l.targetType u = none) (hterm : ¬ l.targetType = "term") :
    add_record_links_go resolve placeholder links =
      .ok (links_payload resolve placeholder links, links_warnings resolve placeholder links) ∧
    link_one resolve placeholder l.targetType u = (none, ["UNABLE to LINK " ++ u]) ∧
    ("UNABLE to LINK " ++ u) ∈ links_warnings resolve placeholder links ∧
    (∀ l2 ∈ links, ∀ id ∈ linkValueList l2.value, ∀ rid, resolve l2.targetType id = some rid →
        ({ name := l2.targetType, toId := rid } : LinkPayloadEntry) ∈
          links_payload resolve placeholder links) ∧
    (∀ e ∈ links_payload resolve placeholder links, ∃ l2 ∈ links, ∃ id ∈ linkValueList l2.value,
        resolve l2.targetType id = some e.toId ∨
          (resolve l2.targetType id = none ∧ l2.targetType = "term" ∧
            e.toId = placeholder id)) ∧
    add_record_relationships_go resolve placeholder inSnapshot rels =
      .ok (rels_calls resolve placeholder inSnapshot rels,
           rels_warnings resolve placeholder inSnapshot rels) ∧
    (∀ r ∈ rels, ∀ id ∈ linkValueList r.node, inSnapshot r.targetType id = true →
        resolve r.targetType id = none → ¬ r.targetType = "term" →
          rel_one resolve placeholder inSnapshot r.targetType id =
            (none, ["UNABLE to RELATE " ++ id])) := by
  have hterm2 : (l.targetType == "term") = false := by
    simpa using hterm
  have hone : link_one resolve placeholder l.targetType u = (none, ["UNABLE to LINK " ++ u]) :=
    link_one_none_of_unresolved resolve placeholder hun hterm2
  refine ⟨add_record_links_go_ok resolve placeholder links hclean, hone, ?_, ?_, ?_,
    add_record_relationships_go_ok resolve placeholder inSnapshot rels hcleanR, ?_⟩
  · rw [links_warnings]
    refine List.mem_flatMap.mpr ⟨l, hl, ?_⟩
    refine List.mem_flatMap.mpr ⟨(none, ["UNABLE to LINK " ++ u]), ?_, by simp⟩
    exact List.mem_map.mpr ⟨u, hu, hone⟩
  · intro l2 hl2 id hid rid hrid
    rw [links_payload]
    refine List.mem_flatMap.mpr ⟨l2, hl2, ?_⟩
    refine List.mem_filterMap.mpr
      ⟨(some { name := l2.targetType, toId := rid }, []), ?_, rfl⟩
    exact List.mem_map.mpr ⟨id, hid, link_one_some resolve placeholder hrid⟩
  · intro e he
    rw [links_payload] at he
    rcases List.mem_flatMap.mp he with ⟨l2, hl2, he2⟩
    rcases List.mem_filterMap.mp he2 with ⟨pr, hpr, hfst⟩
    rcases List.mem_map.mp hpr with ⟨id, hid, hone2⟩
    refine ⟨l2, hl2, id, hid, ?_⟩
    rcases hres : resolve l2.targetType id with _ | rid
    · by_cases ht : (l2.targetType == "term") = true
      · rw [link_one_term_of_unresolved resolve placeholder hres ht] at hone2
        rw [← hone2] at hfst
        have he3 : e = { name := l2.targetType, toId := placeholder id } :=
          (Option.some.inj hfst).symm
        right
        exact ⟨rfl, by simpa using ht, by rw [he3]⟩
      · have ht2 : (l2.targetType == "term") = false := by simpa using ht
        rw [link_one_none_of_unresolved resolve placeholder hres ht2] at hone2
        rw [← hone2] at hfst
        simp at hfst
    · rw [link_one_some resolve placeholder hres] at hone2
      rw [← hone2] at hfst
      have he3 : e = { name := l2.targetType, toId := rid } :=
        (Option.some.inj hfst).symm
      left
      rw [he3]
  · intro r _ id _ hsnap hres ht
    have ht2 : (r.targetType == "term") = false := by simpa using ht
    rw [rel_one, hsnap]
    simp only [if_true]
    rw [hres]
    simp [ht2]

def c8_link0 : LinkSpec :=
  { name := "wasDerivedFromSubject", targetType := "animal_subject", value := LinkVal.vstr "S1" }

def c8_links : List LinkSpec :=
  [c8_link0,
   { name := "hasAgeCategory", targetType := "term", value := LinkVal.vstr "T1" }]

def c8_resolve : String → String → Option String :=
  fun tt id => if tt == "term" && id == "T1" then some "recT1" else none

def c8_placeholder : String → String := fun id => "ph:" ++ id

def c8_inSnapshot : String → String → Bool := fun _ _ => false

/-- C8 witness: a record with an unresolvable subject link and a resolvable
term link completes its link pass, keeps the term link, drops the subject
link and collects the warning. -/
theorem claim_C8_witness :
    ((∀ l ∈ c8_links, l.value ≠ LinkVal.vother) ∧
      (∀ r ∈ ([] : List RelSpec), r.node ≠ LinkVal.vother) ∧
      c8_link0 ∈ c8_links ∧ "S1" ∈ linkValueList c8_link0.value ∧
      c8_resolve c8_link0.targetType "S1" = none ∧ ¬ c8_link0.targetType = "term") ∧
    (add_record_links_go c8_resolve c8_placeholder c8_links =
      .ok (links_payload c8_resolve c8_placeholder c8_links,
           links_warnings c8_resolve c8_placeholder c8_links) ∧
    link_one c8_resolve c8_placeholder c8_link0.targetType "S1" =
      (none, ["UNABLE to LINK " ++ "S1"]) ∧
    ("UNABLE to LINK " ++ "S1") ∈ links_warnings c8_resolve c8_placeholder c8_links ∧
    (∀ l2 ∈ c8_links, ∀ id ∈ linkValueList l2.value, ∀ rid,
        c8_resolve l2.targetType id = some rid →
        ({ name := l2.targetType, toId := rid } : LinkPayloadEntry) ∈
          links_payload c8_resolve c8_placeholder c8_links) ∧
    (∀ e ∈ links_payload c8_resolve c8_placeholder c8_links, ∃ l2 ∈ c8_links,
        ∃ id ∈ linkValueList l2.value,
        c8_resolve l2.targetType id = some e.toId ∨
          (c8_resolve l2.targetType id = none ∧ l2.targetType = "term" ∧
            e.toId = c8_placeholder id)) ∧
    add_record_relationships_go c8_resolve c8_placeholder c8_inSnapshot [] =
      .ok (rels_calls c8_resolve c8_placeholder c8_inSnapshot [],
           rels_warnings c8_resolve c8_placeholder c8_inSnapshot []) ∧
    (∀ r ∈ ([] : List RelSpec), ∀ id ∈ linkValueList r.node,
        c8_inSnapshot r.targetType id = true →
        c8_resolve r.targetType id = none → ¬ r.targetType = "term" →
          rel_one c8_resolve c8_placeholder c8_inSnapshot r.targetType id =
            (none, ["UNABLE to RELATE " ++ id]))) :=
  ⟨⟨by decide, by simp, by decide, by decide, by decide, by decide⟩,
    claim_C8 c8_resolve c8_placeholder c8_inSnapshot c8_links [] (by decide) (by simp)
      c8_link0 (by decide) "S1" (by decide) (by decide) (by decide)⟩

/-! ## Record transforms (parse_json.py 857-1461)

Each `add_X` defines a `transform` closure turning one snapshot record into
the property/value payload of the record to create.  Snapshot values are
strings, arrays or nested objects (`JVal`); a payload value is `none` for
the Python `None`.  External helpers that do not live in the sources or
perform I/O are passed in as functions: `parse_unit_value` (the 4-argument
version called here is absent from the shipped `base.py`), `strptime` and
the milestone-date parser (datetime parsing), `validate_orcid_url` (absent
from the shipped `base.py`), and the federalreporter HTTP response of the
award transform.  The claims below depend only on how the payload's
`recordHash` is built, never on these helpers' values. -/

inductive JVal where
  | s (v : String)
  | arr (v : List JVal)
  | obj (v : List (String × JVal))
  deriving Repr

/-- A snapshot node: a JSON object as an insertion-ordered property list. -/
def Node := List (String × JVal)

def jget (node : Node) (key : String) : Option JVal :=
  List.lookup key node

def pyTruthy : Option JVal → Bool
  | none => false
  | some (.s v) => !(v == "")
  | some (.arr l) => !l.isEmpty
  | some (.obj o) => !o.isEmpty

/-- `get_first(node, name, default)` (base.py 334-338): `node[name][0]` with
`KeyError`/`IndexError` falling back to the default; indexing a string
returns its first character as a one-character string. -/
def get_first (node : Node) (name : String) (default : Option JVal) : Option JVal :=
  match jget node name with
  | some (.arr (x :: _)) => some x
  | some (.arr []) => default
  | some (.s v) =>
    match v.data with
    | [] => default
    | c :: _ => some (.s (String.mk [c]))
  | some (.obj _) => default
  | none => default

/-- `get_as_list(subNode, key)` (base.py 285-292): the value if it is a
list, else the singleton list wrapping it, else `None` when absent. -/
def get_as_list (subNode : Node) (key : String) : Option JVal :=
  match jget subNode key with
  | some (.arr l) => some (.arr l)
  | some v => some (.arr [v])
  | none => none

/-- `add_protocols.transform` (parse_json.py 875-886). -/
def protocol_transform (record_id : String) (sub_node : Node) : List (String × Option JVal) :=
  let url := if pyTruthy (jget sub_node "hasDoi") then jget sub_node "hasDoi"
             else jget sub_node "hasUriHuman"
  [("label", some ((jget sub_node "label").getD (JVal.s "(no label)"))),
   ("url", url),
   ("date", jget sub_node "date"),
   ("publisher", jget sub_node "publisher"),
   ("protocolHasNumberOfSteps", jget sub_node "protocolHasNumberOfSteps"),
   ("hasNumberOfProtcurAnnotations", jget sub_node "hasNumberOfProtcurAnnotations"),
   ("recordHash", jget sub_node "hash")]

/-- `add_terms.transform` (parse_json.py 923-934).  Its record parameter is
named `term`, but the `recordHash` line reads `sub_node.get('hash')`, which
resolves to `add_terms`' own `sub_node` parameter — the whole term
collection of the dataset — not the record, so the first argument here is
that enclosing collection. -/
def add_terms_transform (sub_node : Node) (record_id : String) (term : Node) :
    List (String × Option JVal) :=
  [("label", get_first term "labels" (some (JVal.s "(no label)"))),
   ("curie", jget term "curie"),
   ("definitions", get_first term "definitions" none),
   ("abbreviations", jget term "abbreviations"),
   ("synonyms", jget term "synonyms"),
   ("acronyms", jget term "acronyms"),
   ("categories", jget term "categories"),
   ("iri", jget term "iri"),
   ("recordHash", jget sub_node "hash")]

/-- `add_researchers.transform` (parse_json.py 954-963); the
`validate_orcid_url` helper is imported from `base` but absent from the
sources, so it is an abstract function here. -/
def researcher_transform (validate_orcid_url : Option JVal → Option JVal)
    (record_id : String) (sub_node : Node) : List (String × Option JVal) :=
  [("lastName", some ((jget sub_node "lastName").getD (JVal.s "(Unknown)"))),
   ("firstName", jget sub_node "firstName"),
   ("middleName", jget sub_node "middleName"),
   ("hasAffiliation", jget sub_node "hasAffiliation"),
   ("hasRole", jget sub_node "hasRole"),
   ("hasORCIDId", jget sub_node "hasORCIDId"),
   ("recordHash", validate_orcid_url (jget sub_node "hash"))]

/-- `add_subjects.transform_human` (parse_json.py 1040-1058);
`parse_unit_value` is abstract (the call sites use a 4-argument signature
that the shipped `base.py` does not define), the unit map's `hasAge` entry
enters as the unit and is-number arguments. -/
def human_subject_transform
    (parse_unit_value : Node → String → Option String → Option Bool → Option JVal)
    (hasAgeUnit : Option String) (hasAgeIsNum : Bool)
    (local_id : String) (sub_node : Node) : List (String × Option JVal) :=
  [("localId", some (JVal.s local_id)),
   ("localExecutionNumber", jget sub_node "localExecutionNumber"),
   ("subjectHasWeight", parse_unit_value sub_node "subjectHasWeight" (some "kg") none),
   ("subjectHasHeight", parse_unit_value sub_node "subjectHasHeight" none none),
   ("hasAge", parse_unit_value sub_node "hasAge" hasAgeUnit (some hasAgeIsNum)),
   ("spatialLocationOfModulator", jget sub_node "spatialLocationOfModulator"),
   ("stimulatorUtilized", jget sub_node "stimulatorUtilized"),
   ("hasAssignedGroup", jget sub_node "hasAssignedGroup"),
   ("providerNote", jget sub_node "providerNote"),
   ("involvesAnatomicalRegion", jget sub_node "raw/involvesAnatomicalRegion"),
   ("hasGenotype", jget sub_node "hasGenotype"),
   ("wasAdministeredAnesthesia", jget sub_node "wasAdministeredAnesthesia"),
   ("recordHash", jget sub_node "hash")]

/-- `add_subjects.transform_animal` (parse_json.py 1060-1082); `strptime`
abstracts `DT.strptime(x, '%m-%d-%y')` (failure standing for `ValueError`);
a missing key or a failing parse makes `protocolExecutionDate` `None`,
assigned after the other fields. -/
def animal_subject_transform
    (parse_unit_value : Node → String → Option String → Option Bool → Option JVal)
    (strptime : String → Option String)
    (hasAgeUnit : Option String) (hasAgeIsNum : Bool)
    (local_id : String) (sub_node : Node) : List (String × Option JVal) :=
  let ped : Option JVal :=
    match jget sub_node "protocolExecutionDate" with
    | some (.arr xs) =>
      let parsed := xs.map (fun x => match x with | .s v => strptime v | _ => none)
      if parsed.all (fun p => p.isSome) then
        some (JVal.arr (parsed.map (fun p => JVal.s (p.getD ""))))
      else none
    | _ => none
  [("localId", some (JVal.s local_id)),
   ("localExecutionNumber", jget sub_node "localExecutionNumber"),
   ("hasAge", parse_unit_value sub_node "hasAge" hasAgeUnit (some hasAgeIsNum)),
   ("spatialLocationOfModulator", jget sub_node "spatialLocationOfModulator"),
   ("stimulatorUtilized", jget sub_node "stimulatorUtilized"),
   ("hasAssignedGroup", jget sub_node "hasAssignedGroup"),
   ("providerNote", jget sub_node "providerNote"),
   ("involvesAnatomicalRegion", jget sub_node "raw/involvesAnatomicalRegion"),
   ("hasGenotype", jget sub_node "hasGenotype"),
   ("animalSubjectIsOfStrain", jget sub_node "animalSubjectIsOfStrain"),
   ("animalSubjectHasWeight", parse_unit_value sub_node "animalSubjectHasWeight" none none),
   ("wasAdministeredAnesthesia", jget sub_node "wasAdministeredAnesthesia"),
   ("recordHash", jget sub_node "hash"),
   ("protocolExecutionDate", ped)]

/-- `add_samples.transform` (parse_json.py 1190-1201). -/
def sample_transform (record_id : String) (sub_node : Node) : List (String × Option JVal) :=
  [("id", some (JVal.s record_id)),
   ("description", get_first sub_node "description" none),
   ("hasAssignedGroup", jget sub_node "hasAssignedGroup"),
   ("hasDigitalArtifactThatIsAboutIt", jget sub_node "hasDigitalArtifactThatIsAboutIt"),
   ("extractedFrom", jget sub_node "raw/wasExtractedFromAnatomicalRegion"),
   ("label", some ((jget sub_node "localId").getD (JVal.s "(Unknown)"))),
   ("localExecutionNumber", jget sub_node "localExecutionNumber"),
   ("providerNote", jget sub_node "providerNote"),
   ("recordHash", jget sub_node "hash")]

structure ReporterItem where
  title : String
  abstractText : String
  contactPi : String
  deriving Repr

/-- The federalreporter HTTP response of `add_awards.transform`:
`r.json()` raising, or a total count with the item list. -/
inductive ReporterResp where
  | parseFail
  | ok (totalCount : Nat) (items : List ReporterItem)
  deriving Repr

/-- `add_awards.transform` (parse_json.py 1429-1459); all three branches
store the snapshot record's hash.  The source indexes `data['items'][0]`,
which a consistent response with `totalCount > 0` provides. -/
def award_transform (resp : ReporterResp) (record_id : String) (sub_node : Node) :
    List (String × Option JVal) :=
  let awardId := (jget sub_node "awardId").getD (JVal.s "(Unknown)")
  match resp with
  | .parseFail =>
    [("award_id", some awardId), ("title", none), ("description", none),
     ("principal_investigator", none), ("recordHash", jget sub_node "hash")]
  | .ok totalCount items =>
    if totalCount > 0 then
      let item := items.headD { title := "", abstractText := "", contactPi := "" }
      [("award_id", some awardId), ("title", some (JVal.s item.title)),
       ("description", some (JVal.s item.abstractText)),
       ("principal_investigator", some (JVal.s item.contactPi)),
       ("recordHash", jget sub_node "hash")]
    else
      [("award_id", some awardId), ("title", none), ("description", none),
       ("principal_investigator", none), ("recordHash", jget sub_node "hash")]

/-- `add_summary.transform` (parse_json.py 1323-1354); `parse_milestone`
abstracts the dateutil-based milestone parsing (returning `None` on any
failure). -/
def summary_transform (parse_milestone : Option JVal → Option JVal)
    (record_id : String) (sub_node : Node) : List (String × Option JVal) :=
  [("milestoneCompletionDate", parse_milestone (jget sub_node "milestoneCompletionDate")),
   ("isDescribedBy", get_as_list sub_node "isDescribedBy"),
   ("acknowledgements", jget sub_node "acknowledgements"),
   ("collectionTitle", jget sub_node "collectionTitle"),
   ("curationIndex", jget sub_node "curationIndex"),
   ("description", get_as_list sub_node "description"),
   ("errorIndex", jget sub_node "errorIndex"),
   ("hasExperimentalModality", get_as_list sub_node "hasExperimentalModality"),
   ("hasNumberOfContributors", jget sub_node "hasNumberOfContributors"),
   ("hasNumberOfDirectories", jget sub_node "hasNumberOfDirectories"),
   ("hasNumberOfFiles", jget sub_node "hasNumberOfFiles"),
   ("hasNumberOfSamples", jget sub_node "hasNumberOfSamples"),
   ("hasNumberOfSubjects", jget sub_node "hasNumberOfSubjects"),
   ("hasSizeInBytes", jget sub_node "hasSizeInBytes"),
   ("label", jget sub_node "label"),
   ("submissionIndex", jget sub_node "submissionIndex"),
   ("title", some ((jget sub_node "title").getD (JVal.s "Title Unknown..."))),
   ("recordHash", jget sub_node "hash")]

def c9_term_rec : Node :=
  [("labels", JVal.arr [JVal.s "foo"]), ("hash", JVal.s "h1")]

def c9_term_coll : Node := [("T1", JVal.obj c9_term_rec)]

/-- C9 (code bug at the term transform): the protocol, human-subject,
animal-subject, sample, award and summary transforms copy the snapshot
record's `hash` field verbatim into the payload's `recordHash`, and the
researcher transform alone stores `validate_orcid_url(hash)` there; but the
term transform, whose record parameter is named `term` while the
`recordHash` line reads the enclosing collection `sub_node`, stores the
collection's (absent) `hash` key: at the failing input — a collection
holding one term record with hash `h1` — the created term record's
`recordHash` is `None` instead of `h1`. -/
theorem claim_C9_eval :
    (∀ record_id sub_node, (protocol_transform record_id sub_node).lookup "recordHash" =
        some (jget sub_node "hash")) ∧
    (∀ puv u b local_id sub_node,
        (human_subject_transform puv u b local_id sub_node).lookup "recordHash" =
          some (jget sub_node "hash")) ∧
    (∀ puv strp u b local_id sub_node,
        (animal_subject_transform puv strp u b local_id sub_node).lookup "recordHash" =
          some (jget sub_node "hash")) ∧
    (∀ record_id sub_node, (sample_transform record_id sub_node).lookup "recordHash" =
        some (jget sub_node "hash")) ∧
    (∀ resp record_id sub_node, (award_transform resp record_id sub_node).lookup "recordHash" =
        some (jget sub_node "hash")) ∧
    (∀ pm record_id sub_node, (summary_transform pm record_id sub_node).lookup "recordHash" =
        some (jget sub_node "hash")) ∧
    (∀ v record_id sub_node, (researcher_transform v record_id sub_node).lookup "recordHash" =
        some (v (jget sub_node "hash"))) ∧
    jget c9_term_rec "hash" = some (JVal.s "h1") ∧
    (add_terms_transform c9_term_coll "T1" c9_term_rec).lookup "recordHash" = some none := by
  refine ⟨fun _ _ => rfl, fun _ _ _ _ _ => rfl, fun _ _ _ _ _ _ => rfl, fun _ _ => rfl,
    ?_, fun _ _ _ => rfl, fun _ _ _ => rfl, rfl, rfl⟩
  intro resp record_id sub_node
  cases resp with
  | parseFail => rfl
  | ok totalCount items =>
    rw [award_transform]
    by_cases h : totalCount > 0
    · rw [if_pos h]
      rfl
    · rw [if_neg h]
      rfl
